import Mathlib

/-!
Verification of the syslog message-format encoding layer (`src/format.rs`
of the rust-syslog repository): priority encoding, RFC3164 and RFC5424
line rendering, RFC5424 structured data serialization, message-id
normalization, and timestamp truncation.  The Rust code is shallowly
embedded: formatters are records, the caller-supplied sink is a function
from the written string to a write result, machine integers are `Nat`
(every value involved stays far below any wrap boundary: priorities are
at most 191 and pids are rendered in decimal), and the clock reading is
an explicit record passed to each call.
-/

namespace RustSyslog

/-- Severity levels, in declaration order; the Rust enum derives its
discriminants 0..7 from this order. -/
inductive Severity where
  | LOG_EMERG
  | LOG_ALERT
  | LOG_CRIT
  | LOG_ERR
  | LOG_WARNING
  | LOG_NOTICE
  | LOG_INFO
  | LOG_DEBUG
deriving DecidableEq, Repr

/-- The discriminant of a `Severity` (`severity as u8` in Rust). -/
def severityCode : Severity → Nat
  | .LOG_EMERG => 0
  | .LOG_ALERT => 1
  | .LOG_CRIT => 2
  | .LOG_ERR => 3
  | .LOG_WARNING => 4
  | .LOG_NOTICE => 5
  | .LOG_INFO => 6
  | .LOG_DEBUG => 7

/-- Modelled from the spec: the repository's `facility.rs` is not among the
given source files.  The spec describes `Facility` as a closed enumeration
of syslog facility codes (kernel, user, mail, daemon, local0-7, ...), each
with its fixed multiplier-coded value per POSIX. -/
inductive Facility where
  | LOG_KERN
  | LOG_USER
  | LOG_MAIL
  | LOG_DAEMON
  | LOG_AUTH
  | LOG_SYSLOG
  | LOG_LPR
  | LOG_NEWS
  | LOG_UUCP
  | LOG_CRON
  | LOG_AUTHPRIV
  | LOG_FTP
  | LOG_LOCAL0
  | LOG_LOCAL1
  | LOG_LOCAL2
  | LOG_LOCAL3
  | LOG_LOCAL4
  | LOG_LOCAL5
  | LOG_LOCAL6
  | LOG_LOCAL7
deriving DecidableEq, Repr

/-- Modelled from the spec: the fixed POSIX value of each facility
(`facility as u8` in Rust), the facility number multiplied by 8. -/
def facilityCode : Facility → Nat
  | .LOG_KERN => 0
  | .LOG_USER => 8
  | .LOG_MAIL => 16
  | .LOG_DAEMON => 24
  | .LOG_AUTH => 32
  | .LOG_SYSLOG => 40
  | .LOG_LPR => 48
  | .LOG_NEWS => 56
  | .LOG_UUCP => 64
  | .LOG_CRON => 72
  | .LOG_AUTHPRIV => 80
  | .LOG_FTP => 88
  | .LOG_LOCAL0 => 128
  | .LOG_LOCAL1 => 136
  | .LOG_LOCAL2 => 144
  | .LOG_LOCAL3 => 152
  | .LOG_LOCAL4 => 160
  | .LOG_LOCAL5 => 168
  | .LOG_LOCAL6 => 176
  | .LOG_LOCAL7 => 184

/-- `encode_priority` of `format.rs`: `facility as u8 | severity as u8`.
Both operands are below 256, so the `u8` arithmetic never wraps. -/
def encode_priority (severity : Severity) (facility : Facility) : Nat :=
  Nat.lor (facilityCode facility) (severityCode severity)

/-- Decimal rendering with leading zeros up to `width` digits, as the time
crate's zero-padded numeric components render. -/
def padNum (width n : Nat) : String :=
  String.mk (List.replicate (width - (Nat.repr n).length) '0') ++ Nat.repr n

/-- A clock reading: the calendar and time-of-day components that the time
crate exposes on an `OffsetDateTime` (the offset itself is always UTC on the
paths this code takes). -/
structure Ts where
  year : Nat
  month : Nat
  day : Nat
  hour : Nat
  minute : Nat
  second : Nat
  nanosecond : Nat
deriving DecidableEq, Repr

/-- The time crate's `[month repr:short]` component: three-letter month
names (months are 1..12; other values cannot arise from the crate). -/
def monthShort : Nat → String
  | 1 => "Jan"
  | 2 => "Feb"
  | 3 => "Mar"
  | 4 => "Apr"
  | 5 => "May"
  | 6 => "Jun"
  | 7 => "Jul"
  | 8 => "Aug"
  | 9 => "Sep"
  | 10 => "Oct"
  | 11 => "Nov"
  | 12 => "Dec"
  | _ => ""

/-- The RFC3164 timestamp: the parsed format description
`[month repr:short] [day] [hour]:[minute]:[second]` applied to a clock
reading (numeric components zero-padded to two digits, the crate's
default). -/
def render3164Timestamp (ts : Ts) : String :=
  monthShort ts.month ++ " " ++ padNum 2 ts.day ++ " " ++ padNum 2 ts.hour ++
    ":" ++ padNum 2 ts.minute ++ ":" ++ padNum 2 ts.second

/-- Modelled from the spec: the repository's `errors.rs` is not among the
given source files.  The spec describes a single error kind relevant to
this core, a Format error carrying the underlying I/O cause, which
`chain_err(|| ErrorKind::Format)` attaches when a sink write fails. -/
inductive Error where
  | Format (cause : String)
deriving DecidableEq, Repr

/-- The caller-supplied sink: writing a string either succeeds or fails
with an underlying I/O cause. -/
abbrev Sink : Type := String → Except String Unit

/-- `Formatter3164` of `format.rs`: facility, optional hostname, process
name and pid. -/
structure Formatter3164 where
  facility : Facility
  hostname : Option String
  process : String
  pid : Nat
deriving DecidableEq, Repr

/-- The line `Formatter3164::format` writes: with a hostname the shape is
`<priority>timestamp hostname process[pid]: message`, without one the
hostname token and its trailing space are absent. -/
def render3164 (f : Formatter3164) (severity : Severity) (message : String)
    (ts : Ts) : String :=
  match f.hostname with
  | some hostname =>
      "<" ++ Nat.repr (encode_priority severity f.facility) ++ ">" ++
        render3164Timestamp ts ++ " " ++ hostname ++ " " ++ f.process ++
        "[" ++ Nat.repr f.pid ++ "]: " ++ message
  | none =>
      "<" ++ Nat.repr (encode_priority severity f.facility) ++ ">" ++
        render3164Timestamp ts ++ " " ++ f.process ++
        "[" ++ Nat.repr f.pid ++ "]: " ++ message

/-- `Formatter3164::format`: render the line, write it to the sink, and
wrap a failed write in `Error.Format`.  The timestamp is an explicit
argument (the Rust code reads the clock itself; on the unix path
`now_local` always returns `Ok` of the UTC reading, and formatting with
the fixed format description cannot fail). -/
def format3164 (f : Formatter3164) (w : Sink) (severity : Severity)
    (message : String) (ts : Ts) : Except Error Unit :=
  match w (render3164 f severity message ts) with
  | .ok _ => .ok ()
  | .error e => .error (.Format e)

/-- RFC5424 structured data, `HashMap<String, HashMap<String, String>>` in
the source, embedded as its iteration order: a list of
(SD-ID, parameter list) pairs. -/
abbrev StructuredData : Type := List (String × List (String × String))

/-- `Formatter5424` of `format.rs`: the same four fields as
`Formatter3164`. -/
structure Formatter5424 where
  facility : Facility
  hostname : Option String
  process : String
  pid : Nat
deriving DecidableEq, Repr

/-- `Formatter5424::format_5424_structured_data`: `-` for an empty map,
otherwise for each entry `[id` then ` name="value"` per parameter then
`]`, accumulated left to right. -/
def format_5424_structured_data (data : StructuredData) : String :=
  if List.isEmpty data then "-"
  else
    List.foldl
      (fun res p =>
        (List.foldl (fun r nv => r ++ " " ++ nv.1 ++ "=\"" ++ nv.2 ++ "\"")
          (res ++ "[" ++ p.1) p.2) ++ "]")
      "" data

/-- `NILL_VALUE` of `format.rs`: the value used when a field is not
present. -/
def NILL_VALUE : String := "-"

/-- `is_us_print_ascii` of `format.rs`: code point between 33 and 126. -/
def is_us_print_ascii (c : Char) : Bool :=
  decide (33 ≤ c.toNat) && decide (c.toNat ≤ 126)

/-- The message-id normalization in `Formatter5424::format`: substitute
`NILL_VALUE` for `None`, then keep only printable US-ASCII characters and
take the first 32 of them. -/
def normalizeMsgId (message_id : Option String) : String :=
  String.mk (List.take 32
    (List.filter is_us_print_ascii (Option.getD message_id NILL_VALUE).data))

/-- The sub-second truncation in `Formatter5424::format`:
`timestamp.nanosecond() / 1000 * 1000`. -/
def truncNanos (n : Nat) : Nat := n / 1000 * 1000

/-- The fractional-second part of the time crate's RFC3339 rendering: no
output when the nanosecond value is zero, otherwise a dot followed by the
nanosecond value with trailing decimal zeros removed (the crate picks the
shortest zero-padded width whose last digit is nonzero). -/
def rfc3339Subsec (nanos : Nat) : String :=
  if nanos = 0 then ""
  else if nanos % 10 ≠ 0 then "." ++ padNum 9 nanos
  else if nanos / 10 % 10 ≠ 0 then "." ++ padNum 8 (nanos / 10)
  else if nanos / 100 % 10 ≠ 0 then "." ++ padNum 7 (nanos / 100)
  else if nanos / 1000 % 10 ≠ 0 then "." ++ padNum 6 (nanos / 1000)
  else if nanos / 10000 % 10 ≠ 0 then "." ++ padNum 5 (nanos / 10000)
  else if nanos / 100000 % 10 ≠ 0 then "." ++ padNum 4 (nanos / 100000)
  else if nanos / 1000000 % 10 ≠ 0 then "." ++ padNum 3 (nanos / 1000000)
  else if nanos / 10000000 % 10 ≠ 0 then "." ++ padNum 2 (nanos / 10000000)
  else "." ++ padNum 1 (nanos / 100000000)

/-- The time crate's `Rfc3339` well-known format applied to a UTC clock
reading: date, `T`, time, optional fractional seconds, `Z`. -/
def renderRfc3339 (ts : Ts) : String :=
  padNum 4 ts.year ++ "-" ++ padNum 2 ts.month ++ "-" ++ padNum 2 ts.day ++
    "T" ++ padNum 2 ts.hour ++ ":" ++ padNum 2 ts.minute ++ ":" ++
    padNum 2 ts.second ++ rfc3339Subsec ts.nanosecond ++ "Z"

/-- The line `Formatter5424::format` writes once the message-id is already
normalized and the timestamp already truncated:
`<priority>1 timestamp hostname process pid message-id structured-data
message`, with `localhost` substituted for an absent hostname. -/
def render5424Line (f : Formatter5424) (severity : Severity)
    (message_id : String) (data : StructuredData) (message : String)
    (ts : Ts) : String :=
  "<" ++ Nat.repr (encode_priority severity f.facility) ++ ">1 " ++
    renderRfc3339 ts ++ " " ++ Option.getD f.hostname "localhost" ++ " " ++
    f.process ++ " " ++ Nat.repr f.pid ++ " " ++ message_id ++ " " ++
    format_5424_structured_data data ++ " " ++ message

/-- The full line of `Formatter5424::format` for the string-form
message-id: normalize the message-id, truncate the clock reading's
nanoseconds to a multiple of 1000, and render. -/
def render5424 (f : Formatter5424) (severity : Severity)
    (message_id : Option String) (data : StructuredData) (message : String)
    (ts : Ts) : String :=
  render5424Line f severity (normalizeMsgId message_id) data message
    { ts with nanosecond := truncNanos ts.nanosecond }

/-- `Formatter5424::format` for `(Option String, StructuredData, T)`:
render the line, write it to the sink, and wrap a failed write in
`Error.Format`. -/
def format5424 (f : Formatter5424) (w : Sink) (severity : Severity)
    (log_message : Option String × StructuredData × String) (ts : Ts) :
    Except Error Unit :=
  match w (render5424 f severity log_message.1 log_message.2.1
      log_message.2.2 ts) with
  | .ok _ => .ok ()
  | .error e => .error (.Format e)

/-- `Formatter5424::format` for `(u32, StructuredData, T)`: convert the
integer message-id to its decimal string and delegate to the string-form
implementation. -/
def format5424Int (f : Formatter5424) (w : Sink) (severity : Severity)
    (log_message : Nat × StructuredData × String) (ts : Ts) :
    Except Error Unit :=
  format5424 f w severity
    (some (Nat.repr log_message.1), log_message.2.1, log_message.2.2) ts

/-- One severity-named convenience call of the `LogFormat` contract on a
`Formatter3164` (`emerg`, `alert`, ..., `debug` differ only in the fixed
severity): its result and the formatter value after the call.  The default
methods take the formatter by mutable reference but only call `format` on
an immutable borrow, so the value after the call is the value before. -/
def convenienceCall3164 (f : Formatter3164) (severity : Severity) (w : Sink)
    (message : String) (ts : Ts) : Except Error Unit × Formatter3164 :=
  (format3164 f w severity message ts, f)

/-- One severity-named convenience call on a `Formatter5424`, threading the
formatter value as `convenienceCall3164` does. -/
def convenienceCall5424 (f : Formatter5424) (severity : Severity) (w : Sink)
    (log_message : Option String × StructuredData × String) (ts : Ts) :
    Except Error Unit × Formatter5424 :=
  (format5424 f w severity log_message ts, f)

/-- The formatter value left by a sequence of convenience calls on a
`Formatter3164`. -/
def runCalls3164 (f : Formatter3164) :
    List (Severity × Sink × String × Ts) → Formatter3164
  | [] => f
  | c :: cs => runCalls3164 (convenienceCall3164 f c.1 c.2.1 c.2.2.1 c.2.2.2).2 cs

/-- The formatter value left by a sequence of convenience calls on a
`Formatter5424`. -/
def runCalls5424 (f : Formatter5424) :
    List (Severity × Sink × (Option String × StructuredData × String) × Ts) →
      Formatter5424
  | [] => f
  | c :: cs => runCalls5424 (convenienceCall5424 f c.1 c.2.1 c.2.2.1 c.2.2.2).2 cs

/-- Stated from the spec's words, for comparison with
`format_5424_structured_data`: ` name="value"` for each parameter, in
order, with no escaping. -/
def sdParams : List (String × String) → String
  | [] => ""
  | nv :: rest => " " ++ nv.1 ++ "=\"" ++ nv.2 ++ "\"" ++ sdParams rest

/-- Stated from the spec's words: one SD-ID block, `[id` then the
parameters then `]`. -/
def sdBlock (p : String × List (String × String)) : String :=
  "[" ++ p.1 ++ sdParams p.2 ++ "]"

/-- Stated from the spec's words: all SD-ID blocks concatenated with no
separator. -/
def sdBlocks : StructuredData → String
  | [] => ""
  | p :: rest => sdBlock p ++ sdBlocks rest

end RustSyslog

namespace RustSyslog

/-- C1: for every (severity, facility) pair, `encode_priority` is the total
function returning exactly the bitwise OR of the facility code with the
severity code, and the result always lies in [0, 191]. -/
theorem encode_priority_spec (s : Severity) (f : Facility) :
    encode_priority s f = Nat.lor (facilityCode f) (severityCode s) ∧
      encode_priority s f ≤ 191 := by
  refine ⟨rfl, ?_⟩
  cases s <;> cases f <;> decide

/-- C2: a `Formatter3164::format` call succeeds exactly when the sink
accepts the rendered line, and every failure is a `Format` error carrying
the sink's I/O cause; there is no other failure path (the timestamp is an
explicit argument of the embedding because acquiring and formatting it
cannot fail on the path the code takes). -/
theorem format3164_error_spec (f : Formatter3164) (w : Sink) (sev : Severity)
    (msg : String) (ts : Ts) :
    (format3164 f w sev msg ts = .ok () ↔
      w (render3164 f sev msg ts) = .ok ()) ∧
    (∀ err, format3164 f w sev msg ts = .error err →
      ∃ e, w (render3164 f sev msg ts) = .error e ∧ err = .Format e) := by
  unfold format3164
  cases h : w (render3164 f sev msg ts) with
  | ok u => cases u; simp [h]
  | error e => simp [h]

/-- C3: the emitted MSGID for a string-form message-id `some s` is the
first 32 characters of `s` after dropping every character outside code
points [33, 126] (filter before truncation), and `is_us_print_ascii`
holds exactly on code points 33..126, excluding 32 and 127. -/
theorem msgid_normalization_spec (s : String) :
    normalizeMsgId (some s) =
      String.mk (List.take 32
        (List.filter (fun c => decide (33 ≤ c.toNat ∧ c.toNat ≤ 126)) s.data)) ∧
    (∀ c : Char, is_us_print_ascii c = true ↔ 33 ≤ c.toNat ∧ c.toNat ≤ 126) ∧
    (is_us_print_ascii (Char.ofNat 32) = false ∧
      is_us_print_ascii (Char.ofNat 127) = false ∧
      is_us_print_ascii (Char.ofNat 33) = true ∧
      is_us_print_ascii (Char.ofNat 126) = true) ∧
    (∀ (f : Formatter5424) (sev : Severity) (data : StructuredData)
        (msg : String) (ts : Ts),
      render5424 f sev (some s) data msg ts =
        render5424Line f sev
          (String.mk (List.take 32
            (List.filter (fun c => decide (33 ≤ c.toNat ∧ c.toNat ≤ 126))
              s.data)))
          data msg { ts with nanosecond := truncNanos ts.nanosecond }) := by
  have hfun : (fun c : Char => decide (33 ≤ c.toNat ∧ c.toNat ≤ 126)) =
      is_us_print_ascii := by
    funext c
    rw [Bool.decide_and]
    rfl
  refine ⟨?_, fun c => ?_, by decide, fun f sev data msg ts => ?_⟩
  · unfold normalizeMsgId
    rw [hfun]
    rfl
  · simp [is_us_print_ascii]
  · unfold render5424 normalizeMsgId
    rw [hfun]
    rfl

/-- C4: the integer-form RFC5424 overload delegates to the string-form
overload at the decimal representation of the integer, so both produce
byte-identical output on otherwise-identical inputs; in particular
integer 42 corresponds to `some "42"`. -/
theorem format5424_int_eq_string :
    (∀ (f : Formatter5424) (w : Sink) (sev : Severity) (n : Nat)
        (data : StructuredData) (msg : String) (ts : Ts),
      format5424Int f w sev (n, data, msg) ts =
        format5424 f w sev (some (Nat.repr n), data, msg) ts) ∧
    (∀ (f : Formatter5424) (sev : Severity) (data : StructuredData)
        (msg : String) (ts : Ts),
      render5424 f sev (some (Nat.repr 42)) data msg ts =
        render5424 f sev (some "42") data msg ts) :=
  ⟨fun _ _ _ _ _ _ _ => rfl, fun _ _ _ _ _ => rfl⟩

/-- The parameter fold of `format_5424_structured_data` appends
` name="value"` per parameter to its accumulator. -/
theorem sdParams_foldl (l : List (String × String)) (init : String) :
    List.foldl (fun r nv => r ++ " " ++ nv.1 ++ "=\"" ++ nv.2 ++ "\"") init l =
      init ++ sdParams l := by
  induction l generalizing init with
  | nil => simp [sdParams]
  | cons nv rest ih =>
      rw [List.foldl_cons, ih]
      simp [sdParams, String.append_assoc]

/-- The outer fold of `format_5424_structured_data` appends one block per
SD-ID entry to its accumulator. -/
theorem sdBlocks_foldl (data : List (String × List (String × String)))
    (init : String) :
    List.foldl
      (fun res p =>
        (List.foldl (fun r nv => r ++ " " ++ nv.1 ++ "=\"" ++ nv.2 ++ "\"")
          (res ++ "[" ++ p.1) p.2) ++ "]")
      init data = init ++ sdBlocks data := by
  induction data generalizing init with
  | nil => simp [sdBlocks]
  | cons p rest ih =>
      rw [List.foldl_cons, ih, sdParams_foldl]
      simp [sdBlocks, sdBlock, String.append_assoc]

/-- C5: structured-data serialization returns `-` for the empty map, and
for a non-empty map concatenates, entry by entry, `[id` then
` name="value"` per parameter (verbatim, no escaping) then `]`, with no
separator between blocks; the spec's example encodes exactly as stated. -/
theorem structured_data_spec :
    format_5424_structured_data [] = "-" ∧
    (∀ data : StructuredData, data ≠ [] →
      format_5424_structured_data data = sdBlocks data) ∧
    format_5424_structured_data [("exampleSDID@0", [("iut", "3")])] =
      "[exampleSDID@0 iut=\"3\"]" := by
  refine ⟨rfl, fun data h => ?_, by decide⟩
  cases data with
  | nil => exact absurd rfl h
  | cons p rest =>
      simpa [format_5424_structured_data, List.isEmpty] using
        sdBlocks_foldl (p :: rest) ""

/-- C5 witness: the spec's example, through the general non-empty case of
`structured_data_spec`. -/
theorem structured_data_spec_witness :
    format_5424_structured_data [("exampleSDID@0", [("iut", "3")])] =
      sdBlocks [("exampleSDID@0", [("iut", "3")])] :=
  structured_data_spec.2.1 _ (by decide)

/-- C6: the RFC5424 formatter floors the nanosecond value to a multiple of
1000 (the greatest one not exceeding the reading) before rendering, and a
reading with nanosecond value 123456789 renders with exactly the six
fractional digits 123456. -/
theorem timestamp_truncation_spec :
    (∀ n : Nat, truncNanos n % 1000 = 0 ∧ truncNanos n ≤ n ∧
      n < truncNanos n + 1000) ∧
    rfc3339Subsec (truncNanos 123456789) = ".123456" ∧
    (∀ (f : Formatter5424) (sev : Severity) (mid : Option String)
        (data : StructuredData) (msg : String) (ts : Ts),
      render5424 f sev mid data msg ts =
        render5424Line f sev (normalizeMsgId mid) data msg
          { ts with nanosecond := truncNanos ts.nanosecond }) := by
  refine ⟨fun n => ?_, by decide, fun _ _ _ _ _ _ => rfl⟩
  unfold truncNanos
  have h := Nat.div_add_mod n 1000
  have h2 : n % 1000 < 1000 := Nat.mod_lt _ (by norm_num)
  omega

/-- C7: with a hostname the RFC3164 line is
`<priority>timestamp hostname process[pid]: message`; without one it is
the same line minus the hostname token and the single space that follows
it, all other fields unchanged. -/
theorem rfc3164_hostname_cases (fac : Facility) (h proc : String) (pid : Nat)
    (sev : Severity) (msg : String) (ts : Ts) :
    render3164 ⟨fac, some h, proc, pid⟩ sev msg ts =
      ("<" ++ Nat.repr (encode_priority sev fac) ++ ">" ++
        render3164Timestamp ts ++ " ") ++ (h ++ " ") ++
        (proc ++ "[" ++ Nat.repr pid ++ "]: " ++ msg) ∧
    render3164 ⟨fac, none, proc, pid⟩ sev msg ts =
      ("<" ++ Nat.repr (encode_priority sev fac) ++ ">" ++
        render3164Timestamp ts ++ " ") ++
        (proc ++ "[" ++ Nat.repr pid ++ "]: " ++ msg) := by
  constructor <;> simp [render3164, String.append_assoc]

/-- C8: every RFC5424 line has the fixed-field shape
`<priority>1 timestamp hostname process pid message-id structured-data
message` with single-space separators, the version literal `1` directly
after the closing priority bracket, and `localhost` substituted when the
hostname is absent. -/
theorem rfc5424_line_shape (f : Formatter5424) (sev : Severity)
    (mid : Option String) (data : StructuredData) (msg : String) (ts : Ts) :
    render5424 f sev mid data msg ts =
      "<" ++ Nat.repr (encode_priority sev f.facility) ++ ">1 " ++
        renderRfc3339 { ts with nanosecond := truncNanos ts.nanosecond } ++
        " " ++
        (match f.hostname with | some h => h | none => "localhost") ++ " " ++
        f.process ++ " " ++ Nat.repr f.pid ++ " " ++ normalizeMsgId mid ++
        " " ++ format_5424_structured_data data ++ " " ++ msg ∧
    render5424 ⟨f.facility, none, f.process, f.pid⟩ sev mid data msg ts =
      "<" ++ Nat.repr (encode_priority sev f.facility) ++ ">1 " ++
        renderRfc3339 { ts with nanosecond := truncNanos ts.nanosecond } ++
        " " ++ "localhost" ++ " " ++
        f.process ++ " " ++ Nat.repr f.pid ++ " " ++ normalizeMsgId mid ++
        " " ++ format_5424_structured_data data ++ " " ++ msg := by
  constructor
  · cases hh : f.hostname <;> simp [render5424, render5424Line, hh, Option.getD]
  · simp [render5424, render5424Line, Option.getD]

/-- A sequence of convenience calls returns the `Formatter3164` it
started from. -/
theorem runCalls3164_eq (f : Formatter3164)
    (calls : List (Severity × Sink × String × Ts)) :
    runCalls3164 f calls = f := by
  induction calls with
  | nil => rfl
  | cons c cs ih => simpa [runCalls3164, convenienceCall3164] using ih

/-- A sequence of convenience calls returns the `Formatter5424` it
started from. -/
theorem runCalls5424_eq (f : Formatter5424)
    (calls : List (Severity × Sink ×
      (Option String × StructuredData × String) × Ts)) :
    runCalls5424 f calls = f := by
  induction calls with
  | nil => rfl
  | cons c cs ih => simpa [runCalls5424, convenienceCall5424] using ih

/-- C9: any sequence of formatting calls (through the severity-named
convenience operations) leaves all four fields of either formatter
unchanged: the formatter value afterwards equals the value at
construction. -/
theorem formatter_immutability :
    (∀ (f : Formatter3164) (calls : List (Severity × Sink × String × Ts)),
      (runCalls3164 f calls).facility = f.facility ∧
      (runCalls3164 f calls).hostname = f.hostname ∧
      (runCalls3164 f calls).process = f.process ∧
      (runCalls3164 f calls).pid = f.pid) ∧
    (∀ (f : Formatter5424) (calls : List (Severity × Sink ×
        (Option String × StructuredData × String) × Ts)),
      (runCalls5424 f calls).facility = f.facility ∧
      (runCalls5424 f calls).hostname = f.hostname ∧
      (runCalls5424 f calls).process = f.process ∧
      (runCalls5424 f calls).pid = f.pid) := by
  refine ⟨fun f calls => ?_, fun f calls => ?_⟩ <;>
    simp [runCalls3164_eq, runCalls5424_eq]

/-- C10: when every character of a string-form message-id is outside the
printable range, normalization yields the empty string, so the line
carries an empty MSGID and two adjacent spaces; the NILVALUE `-` is
substituted only for `None` (before filtering), never for a
fully-filtered-out message-id. -/
theorem msgid_fully_filtered (s : String)
    (hs : ∀ c ∈ s.data, c.toNat < 33 ∨ 126 < c.toNat) :
    normalizeMsgId (some s) = "" ∧
    (∀ (f : Formatter5424) (sev : Severity) (data : StructuredData)
        (msg : String) (ts : Ts),
      render5424 f sev (some s) data msg ts =
        "<" ++ Nat.repr (encode_priority sev f.facility) ++ ">1 " ++
          renderRfc3339 { ts with nanosecond := truncNanos ts.nanosecond } ++
          " " ++ Option.getD f.hostname "localhost" ++ " " ++
          f.process ++ " " ++ Nat.repr f.pid ++ "  " ++
          format_5424_structured_data data ++ " " ++ msg) ∧
    normalizeMsgId none = NILL_VALUE := by
  have hempty : normalizeMsgId (some s) = "" := by
    have hf : List.filter is_us_print_ascii s.data = [] := by
      refine List.filter_eq_nil_iff.mpr fun c hc => ?_
      have := hs c hc
      simp only [is_us_print_ascii, Bool.and_eq_true, decide_eq_true_eq, not_and]
      omega
    simp [normalizeMsgId, hf]
  refine ⟨hempty, fun f sev data msg ts => ?_, rfl⟩
  unfold render5424 render5424Line
  rw [hempty, String.append_empty, String.append_assoc _ " " " "]
  rfl

/-- C10 witness: a message-id consisting of a single space character is
filtered out entirely. -/
theorem msgid_fully_filtered_witness :
    normalizeMsgId (some " ") = "" ∧
    (∀ (f : Formatter5424) (sev : Severity) (data : StructuredData)
        (msg : String) (ts : Ts),
      render5424 f sev (some " ") data msg ts =
        "<" ++ Nat.repr (encode_priority sev f.facility) ++ ">1 " ++
          renderRfc3339 { ts with nanosecond := truncNanos ts.nanosecond } ++
          " " ++ Option.getD f.hostname "localhost" ++ " " ++
          f.process ++ " " ++ Nat.repr f.pid ++ "  " ++
          format_5424_structured_data data ++ " " ++ msg) ∧
    normalizeMsgId none = NILL_VALUE :=
  msgid_fully_filtered " " (by decide)

end RustSyslog
